import Mathlib

/-!
Shallow embedding of the key-object and signature layer of python-optiga-trust
(`src/optigatrust/asymmetric.py` and `src/optigatrust/crypto.py`).

Bytes are modelled as `List Nat` (each entry a byte value). The hardware
transport (the `exp_optiga_crypt_*` C entry points) is an external
collaborator: every operation that calls it takes an oracle function from the
concrete call it issues (curve id / key type, usage mask, digest, slot id, ...)
to the hardware response (an integer status code plus the bytes the hardware
wrote into the output buffers). The `hashlib` digest functions are likewise
external and passed in as a function from algorithm name and data to digest
bytes.

Python methods that mutate `self` are embedded as functions returning the new
object state paired with an `Except` result, so that mutation on a failing
path remains observable. A raised Python exception is an `Except.error`.
-/

namespace optigatrust

/-- The error outcomes of the layer: `ValueError` on an invalid slot id
(`EccKey.__init__` / `RsaKey.__init__`), `ValueError` on an unsupported curve
name (`_str2curve`), `ValueError` on an unsupported RSA key size
(`RsaKey.generate`), `ValueError` on a key-usage string outside the allowed
dict (`generate`), `ValueError` on a hash algorithm outside sha256/sha384
(`pkcs1v15_sign`), `TypeError` when the resolved curve id is not among the
chip's supported curve values (`generate`), `IOError` carrying the non-zero
hardware status code, and the uncaught Python `KeyError` that
`_map[self.curve]` in `ecdsa_sign` would raise on a curve name outside the
digest map. -/
inductive Err where
  | invalidSlot (slot : Nat)
  | unsupportedCurve (name : String)
  | unsupportedKeySize (size : Nat)
  | unsupportedUsageFlag (flag : String)
  | unsupportedHashAlgorithm (name : String)
  | curveNotInChip (curveId : Nat)
  | hardwareFault (code : Nat)
  | curveKeyError (name : String)
  deriving DecidableEq, Repr

/-- The six supported curve names: the keys of the `_map` dict in
`_str2curve` (identical in asymmetric.py lines 39-54 and crypto.py
lines 39-54). -/
def supportedCurves : List String :=
  ["secp256r1", "secp384r1", "secp521r1",
   "brainpoolp256r1", "brainpoolp384r1", "brainpoolp512r1"]

/-- Modelled from the spec: the curve wire ids (`m3.Curves.SEC_P256R1` etc.)
come from the enums module, which is not under src/; the spec (§3 CurveSpec)
only requires a fixed curve-wire-id per supported name, so distinct codes are
used here. Which names are mapped (and hence which fail) is taken from the
source dict. -/
def curveId (s : String) : Option Nat :=
  if s = "secp256r1" then some 3
  else if s = "secp384r1" then some 4
  else if s = "secp521r1" then some 5
  else if s = "brainpoolp256r1" then some 19
  else if s = "brainpoolp384r1" then some 21
  else if s = "brainpoolp512r1" then some 22
  else none

/-- `_str2curve(curve_str, return_value=True)` (asymmetric.py lines 39-54,
crypto.py lines 39-54): returns the wire id of a supported curve name and
raises `ValueError` for every other name. -/
def str2curve (s : String) : Except Err Nat :=
  match curveId s with
  | some v => .ok v
  | none => .error (.unsupportedCurve s)

/-- Modelled from the spec: the key-usage enum bit values
(`key_usage.KEY_AGR/AUTH/ENCRYPT/SIGN`) come from the enums module, which is
not under src/; the spec (§3 KeyUsage) specifies the wire encoding as a
bitmask, the sum of per-flag bit values, so each flag carries a distinct
bit here (values follow the OPTIGA key-usage bit assignment). -/
def usageBit (flag : String) : Nat :=
  if flag = "authentication" then 0x01
  else if flag = "encryption" then 0x02
  else if flag = "signature" then 0x10
  else if flag = "key_agreement" then 0x20
  else 0

/-- Keys of the `_allowed_key_usage` dict of the ECC `generate` methods
(asymmetric.py lines 137-141, crypto.py lines 189-193). -/
def eccAllowedUsage : List String := ["key_agreement", "authentication", "signature"]

/-- Keys of the `_allowed_key_usages` dict of the RSA `generate` methods
(asymmetric.py lines 291-296, crypto.py lines 348-353). -/
def rsaAllowedUsage : List String :=
  ["key_agreement", "authentication", "encryption", "signature"]

/-- The `for entry in key_usage` loop of the `generate` methods: raises
`ValueError` at the first entry outside the allowed dict, otherwise collects
the entries (the Python list collects the looked-up enum members; a member is
represented here by its name). -/
def resolveUsageList (allowed : List String) : List String → Except Err (List String)
  | [] => .ok []
  | e :: rest =>
    if e ∈ allowed then
      match resolveUsageList allowed rest with
      | .ok r => .ok (e :: r)
      | .error err => .error err
    else .error (.unsupportedUsageFlag e)

/-- The key-usage binding of the `generate` methods: `[KEY_AGR, SIGN]` when
the `key_usage` argument is `None`, otherwise the validated entry list. -/
def resolveUsage (allowed : List String) (ku : Option (List String)) :
    Except Err (List String) :=
  match ku with
  | none => .ok ["key_agreement", "signature"]
  | some entries => resolveUsageList allowed entries

/-- `c_ubyte(sum(map(lambda ku: ku.value, _key_usage)))`: the usage bitmask
byte sent to the hardware (c_ubyte truncates to 8 bits). -/
def usageMask (flags : List String) : Nat := (flags.map usageBit).sum % 256

/-- Modelled from the spec: no decoder exists in src/; §8 asks for the
conceptual round-trip, so decoding a bitmask yields the flags of the kind's
allowed domain whose bit is set in the mask. -/
def decodeUsage (allowed : List String) (mask : Nat) : List String :=
  allowed.filter (fun f => decide (mask &&& usageBit f ≠ 0))

/-- The `_map` dict of the `ecdsa_sign` methods (asymmetric.py lines 210-217,
crypto.py lines 275-282): digest length in bytes and digest algorithm name
per curve name (the hashlib function member of each triple is determined by
the name and supplied externally). -/
def curveDigest (curve : String) : Option (Nat × String) :=
  if curve = "secp256r1" then some (32, "sha256")
  else if curve = "secp384r1" then some (48, "sha384")
  else if curve = "secp521r1" then some (64, "sha512")
  else if curve = "brainpoolp256r1" then some (32, "sha256")
  else if curve = "brainpoolp384r1" then some (48, "sha384")
  else if curve = "brainpoolp512r1" then some (64, "sha512")
  else none

/-- The 1024-bit RSA public-key DER header constant of the RSA `generate`
methods (asymmetric.py line 323, crypto.py line 381). -/
def rsaHeader1024 : List Nat :=
  [0x30, 0x81, 0x9F, 0x30, 0x0D, 0x06, 0x09, 0x2A, 0x86, 0x48, 0x86, 0xF7,
   0x0D, 0x01, 0x01, 0x01, 0x05, 0x00]

/-- The 2048-bit RSA public-key DER header constant of the RSA `generate`
methods (asymmetric.py line 326, crypto.py line 384). -/
def rsaHeader2048 : List Nat :=
  [0x30, 0x82, 0x01, 0x22, 0x30, 0x0d, 0x06, 0x09, 0x2a, 0x86, 0x48, 0x86,
   0xf7, 0x0d, 0x01, 0x01, 0x01, 0x05, 0x00]

/-- `if key_size == 1024: c_keytype = 0x41 ... else: c_keytype = 0x42`
(reached only after `key_size in {1024, 2048}` was checked). -/
def rsaKeyType (key_size : Nat) : Nat := if key_size = 1024 then 0x41 else 0x42

/-- The DER header selected together with the key type code. -/
def rsaHeader (key_size : Nat) : List Nat :=
  if key_size = 1024 then rsaHeader1024 else rsaHeader2048

/-- Modelled from the spec: the key-id enum values `ECC_KEY_E0F0` ..
`ECC_KEY_E0F3` come from the enums module, which is not under src/; spec §6
and the enum member names fix them as the four slots 0xe0f0-0xe0f3. -/
def eccFixedSlots : List Nat := [0xe0f0, 0xe0f1, 0xe0f2, 0xe0f3]

/-- The ambient chip object (`self.optiga` / `self._optiga`), reduced to the
two value sets the embedded code reads: `session_id_values` and
`curves_values`. Both come from modules outside src/, so they are kept
abstract as parameters. -/
structure Chip where
  sessionIds : List Nat
  curvesValues : List Nat

/-- A call to `exp_optiga_crypt_ecc_generate_keypair` /
`exp_optiga_crypt_rsa_generate_keypair`: curve id or RSA key type code, the
usage mask byte, the export flag, and the target slot id. -/
structure GenCall where
  ctype : Nat
  usage_mask : Nat
  exportFlag : Bool
  key_id : Nat
  deriving DecidableEq, Repr

/-- The hardware response to a key-generation call: the status code, the
public-key bytes written into the output buffer (its first `c_plen` bytes
after the call), and the private-key bytes (first 104 buffer bytes) when
export was requested. -/
structure HwKeyGen where
  status : Nat
  pubkey : List Nat
  priv : List Nat
  deriving DecidableEq, Repr

/-- A call to `exp_optiga_crypt_ecdsa_sign`: digest bytes, digest length and
slot id. -/
structure SignCall where
  digest : List Nat
  digest_len : Nat
  key_id : Nat
  deriving DecidableEq, Repr

/-- A call to `exp_optiga_crypt_rsa_sign`: signature scheme byte, digest
bytes, digest length and slot id. -/
structure RsaSignCall where
  sign_scheme : Nat
  digest : List Nat
  digest_len : Nat
  key_id : Nat
  deriving DecidableEq, Repr

/-- The hardware response to a signing call: the status code and the raw
signature bytes (the first `c_slen` bytes of the output buffer after the
call; `c_slen` is a c_ubyte in the ECDSA path, so that length is at most
255). -/
structure HwSign where
  status : Nat
  raw : List Nat
  deriving DecidableEq, Repr

/-- The hardware response to `exp_optiga_crypt_random`: status code and the
bytes written into the `n`-byte buffer. -/
structure HwRandom where
  status : Nat
  bytes : List Nat
  deriving DecidableEq, Repr

/-- The random source selected by the `trng` argument (`ot.rng.TRNG` /
`ot.rng.DRNG`). -/
inductive RngKind where
  | trng
  | drng
  deriving DecidableEq, Repr

/-- The `_Signature` value object (asymmetric.py lines 57-62, crypto.py
lines 94-99): digest algorithm name, originating key id, encoded signature
bytes, algorithm tag. -/
structure SignatureValue where
  hash_alg : String
  id : Nat
  signature : List Nat
  algorithm : String
  deriving DecidableEq, Repr

/-- `EcdsaSignature.__init__` / `ECDSASignature.__init__`: the algorithm tag
is `'%s_%s' % (hash_alg, 'ecdsa')`. -/
def mkEcdsaSignature (hash_alg : String) (key_id : Nat) (sig : List Nat) :
    SignatureValue :=
  { hash_alg := hash_alg, id := key_id, signature := sig,
    algorithm := hash_alg ++ "_" ++ "ecdsa" }

/-- `RsaPkcs1v15Signature.__init__` / `PKCS1v15Signature.__init__`: the
algorithm tag is `'%s_%s' % (hash_alg, 'rsa')`. -/
def mkPkcs1v15Signature (hash_alg : String) (key_id : Nat) (sig : List Nat) :
    SignatureValue :=
  { hash_alg := hash_alg, id := key_id, signature := sig,
    algorithm := hash_alg ++ "_" ++ "rsa" }

namespace asymmetric

/-- The mutable fields of `asymmetric.EccKey`: bound slot id, curve name, and
the fields set (or left `None`) by `__init__` and `generate`/`ecdsa_sign`. -/
structure EccKey where
  key_id : Nat
  curve : String
  key_usage : Option (List String)
  hash_alg : Option String
  pkey : Option (List Nat)
  deriving DecidableEq, Repr

/-- `asymmetric.EccKey.__init__` (lines 78-92): raises `ValueError` unless
the slot id is one of the four fixed ECC slots or among the chip's session
id values; otherwise yields a key object with all generated fields absent. -/
def EccKey.construct (chip : Chip) (key_id : Nat) (curve : String) :
    Except Err EccKey :=
  if key_id ∉ eccFixedSlots ∧ key_id ∉ chip.sessionIds then
    .error (.invalidSlot key_id)
  else
    .ok { key_id := key_id, curve := curve, key_usage := none,
          hash_alg := none, pkey := none }

/-- The validation phase of `asymmetric.EccKey.generate` (lines 137-168):
resolves the usage list, resolves the curve id and checks it against the
chip's supported curve values, and assembles the hardware call (export is
hard-wired to 0 in this module, line 170). -/
def EccKey.genCall (chip : Chip) (k : EccKey) (curve : String)
    (key_usage : Option (List String)) : Except Err (List String × GenCall) :=
  match resolveUsage eccAllowedUsage key_usage with
  | .error e => .error e
  | .ok ku =>
    match str2curve curve with
    | .error e => .error e
    | .ok c =>
      if c ∉ chip.curvesValues then .error (.curveNotInChip c)
      else .ok (ku, { ctype := c, usage_mask := usageMask ku,
                      exportFlag := false, key_id := k.key_id })

/-- `asymmetric.EccKey.generate` (lines 118-181): validates, invokes the
hardware, and on status 0 binds the public-key bytes, the usage list and the
curve; on a non-zero status raises `IOError` carrying the code, leaving the
object as it was. -/
def EccKey.generate (chip : Chip) (k : EccKey) (curve : String)
    (key_usage : Option (List String)) (hw : GenCall → HwKeyGen) :
    EccKey × Except Err EccKey :=
  match k.genCall chip curve key_usage with
  | .error e => (k, .error e)
  | .ok (ku, call) =>
    let resp := hw call
    if resp.status = 0 then
      let k2 := { k with
        pkey := some resp.pubkey
        key_usage := some ku
        curve := curve }
      (k2, .ok k2)
    else (k, .error (.hardwareFault resp.status))

/-- `asymmetric.EccKey.ecdsa_sign` (lines 183-242): selects digest length and
algorithm from the bound curve via the `_map` dict (an unsupported bound
curve would raise an uncaught `KeyError`), computes the digest with the
external hashlib function, records the algorithm name in `self._hash_alg`
BEFORE the hardware call, invokes the hardware, and on status 0 wraps the raw
r‖s bytes as `0x30 || slen || raw`; a non-zero status raises `IOError`
carrying the code. -/
def EccKey.ecdsa_sign (hashImpl : String → List Nat → List Nat) (k : EccKey)
    (data : List Nat) (hw : SignCall → HwSign) :
    EccKey × Except Err SignatureValue :=
  match curveDigest k.curve with
  | none => (k, .error (.curveKeyError k.curve))
  | some (dlen, halg) =>
    let digest := hashImpl halg data
    let k2 := { k with hash_alg := some halg }
    let resp := hw { digest := digest, digest_len := dlen, key_id := k.key_id }
    if resp.status = 0 then
      (k2, .ok (mkEcdsaSignature halg k.key_id
                 (0x30 :: resp.raw.length :: resp.raw)))
    else (k2, .error (.hardwareFault resp.status))

/-- The mutable fields of `asymmetric.RsaKey`. -/
structure RsaKey where
  key_id : Nat
  key_usage : Option (List String)
  key_size : Option Nat
  pkey : Option (List Nat)
  deriving DecidableEq, Repr

/-- `asymmetric.RsaKey.__init__` (lines 246-255): raises `ValueError` unless
the slot id is 0xe0fc or 0xe0fd. -/
def RsaKey.construct (key_id : Nat) : Except Err RsaKey :=
  if key_id ≠ 0xe0fc ∧ key_id ≠ 0xe0fd then
    .error (.invalidSlot key_id)
  else
    .ok { key_id := key_id, key_usage := none, key_size := none, pkey := none }

/-- The validation phase of `asymmetric.RsaKey.generate` (lines 291-331):
resolves the usage list, checks `key_size in {1024, 2048}`, selects the key
type code, and assembles the hardware call (export hard-wired to 0, line
333). -/
def RsaKey.genCall (k : RsaKey) (key_size : Nat)
    (key_usage : Option (List String)) : Except Err (List String × GenCall) :=
  match resolveUsage rsaAllowedUsage key_usage with
  | .error e => .error e
  | .ok ku =>
    if key_size ∉ ([1024, 2048] : List Nat) then
      .error (.unsupportedKeySize key_size)
    else .ok (ku, { ctype := rsaKeyType key_size, usage_mask := usageMask ku,
                    exportFlag := false, key_id := k.key_id })

/-- `asymmetric.RsaKey.generate` (lines 269-344): validates, invokes the
hardware, and on status 0 binds `rsa_header + pubkey_bytes`, the usage list
and the key size; a non-zero status raises `IOError` carrying the code,
leaving the object as it was. -/
def RsaKey.generate (k : RsaKey) (key_size : Nat)
    (key_usage : Option (List String)) (hw : GenCall → HwKeyGen) :
    RsaKey × Except Err RsaKey :=
  match k.genCall key_size key_usage with
  | .error e => (k, .error e)
  | .ok (ku, call) =>
    let resp := hw call
    if resp.status = 0 then
      let k2 := { k with
        pkey := some (rsaHeader key_size ++ resp.pubkey)
        key_usage := some ku
        key_size := some key_size }
      (k2, .ok k2)
    else (k, .error (.hardwareFault resp.status))

/-- `asymmetric.RsaKey.pkcs1v15_sign` (lines 346-400): for `'sha256'` builds
a scheme-0x01 call with a 32-byte digest, for `'sha384'` a scheme-0x02 call
with a 48-byte digest, and for every other hash algorithm name raises
`ValueError` before any hardware call; on status 0 the signature bytes are
the raw buffer bytes of the transport-reported length, unmodified. -/
def RsaKey.pkcs1v15_sign (hashImpl : String → List Nat → List Nat)
    (k : RsaKey) (data : List Nat) (hash_algorithm : String)
    (hw : RsaSignCall → HwSign) : RsaKey × Except Err SignatureValue :=
  if hash_algorithm = "sha256" then
    let resp := hw { sign_scheme := 0x01, digest := hashImpl "sha256" data,
                     digest_len := 32, key_id := k.key_id }
    if resp.status = 0 then
      (k, .ok (mkPkcs1v15Signature hash_algorithm k.key_id resp.raw))
    else (k, .error (.hardwareFault resp.status))
  else if hash_algorithm = "sha384" then
    let resp := hw { sign_scheme := 0x02, digest := hashImpl "sha384" data,
                     digest_len := 48, key_id := k.key_id }
    if resp.status = 0 then
      (k, .ok (mkPkcs1v15Signature hash_algorithm k.key_id resp.raw))
    else (k, .error (.hardwareFault resp.status))
  else (k, .error (.unsupportedHashAlgorithm hash_algorithm))

end asymmetric

namespace crypto

/-- `crypto.random` (lines 57-91): selects the TRNG or DRNG source from the
`trng` argument, invokes `exp_optiga_crypt_random` with an `n`-byte buffer,
and returns the buffer bytes on status 0 and the empty byte string
(`bytes(0)`) on every non-zero status. -/
def random (n : Nat) (trng : Bool) (hw : Nat → RngKind → HwRandom) :
    List Nat :=
  let resp := if trng = true then hw n RngKind.trng else hw n RngKind.drng
  if resp.status = 0 then resp.bytes else []

/-- The mutable fields of `crypto.ECCKey` (including the `_Key` mixin
fields): bound slot id, curve name, and the fields set by `__init__`,
`generate` and `ecdsa_sign`; `key` holds the exported private-key bytes. -/
structure ECCKey where
  id : Nat
  curve : String
  key_usage : Option (List String)
  hash_alg : Option String
  pkey : Option (List Nat)
  key : Option (List Nat)
  deriving DecidableEq, Repr

/-- `crypto.ECCKey.__init__` (lines 142-153): raises `ValueError` unless the
slot id is one of the four fixed ECC slots or among the chip's session id
values; otherwise yields a key object with all generated fields absent. -/
def ECCKey.construct (chip : Chip) (key_id : Nat) (curve : String) :
    Except Err ECCKey :=
  if key_id ∉ eccFixedSlots ∧ key_id ∉ chip.sessionIds then
    .error (.invalidSlot key_id)
  else
    .ok { id := key_id, curve := curve, key_usage := none,
          hash_alg := none, pkey := none, key := none }

/-- The validation phase of `crypto.ECCKey.generate` (lines 189-226):
resolves the usage list, resolves the curve id and checks it against the
chip's supported curve values, and assembles the hardware call with the
caller's export flag. -/
def ECCKey.genCall (chip : Chip) (k : ECCKey) (curve : String)
    (key_usage : Option (List String)) (exportKey : Bool) :
    Except Err (List String × GenCall) :=
  match resolveUsage eccAllowedUsage key_usage with
  | .error e => .error e
  | .ok ku =>
    match str2curve curve with
    | .error e => .error e
    | .ok c =>
      if c ∉ chip.curvesValues then .error (.curveNotInChip c)
      else .ok (ku, { ctype := c, usage_mask := usageMask ku,
                      exportFlag := exportKey, key_id := k.id })

/-- `crypto.ECCKey.generate` (lines 163-246): validates, invokes the
hardware, and on status 0 binds the public-key bytes, the private-key bytes
when export was requested, the usage list and the curve; a non-zero status
raises `IOError` carrying the code, leaving the object as it was. -/
def ECCKey.generate (chip : Chip) (k : ECCKey) (curve : String)
    (key_usage : Option (List String)) (exportKey : Bool)
    (hw : GenCall → HwKeyGen) : ECCKey × Except Err ECCKey :=
  match k.genCall chip curve key_usage exportKey with
  | .error e => (k, .error e)
  | .ok (ku, call) =>
    let resp := hw call
    if resp.status = 0 then
      let k2 := { k with
        pkey := some resp.pubkey
        key := if exportKey = true then some resp.priv else k.key
        key_usage := some ku
        curve := curve }
      (k2, .ok k2)
    else (k, .error (.hardwareFault resp.status))

/-- `crypto.ECCKey.ecdsa_sign` (lines 248-307): selects digest length and
algorithm from the bound curve via the `_map` dict (an unsupported bound
curve would raise an uncaught `KeyError`), computes the digest with the
external hashlib function, records the algorithm name in `self._hash_alg`
BEFORE the hardware call, invokes the hardware, and on status 0 wraps the raw
r‖s bytes as `0x30 || slen || raw`; a non-zero status raises `IOError`
carrying the code. -/
def ECCKey.ecdsa_sign (hashImpl : String → List Nat → List Nat) (k : ECCKey)
    (data : List Nat) (hw : SignCall → HwSign) :
    ECCKey × Except Err SignatureValue :=
  match curveDigest k.curve with
  | none => (k, .error (.curveKeyError k.curve))
  | some (dlen, halg) =>
    let digest := hashImpl halg data
    let k2 := { k with hash_alg := some halg }
    let resp := hw { digest := digest, digest_len := dlen, key_id := k.id }
    if resp.status = 0 then
      (k2, .ok (mkEcdsaSignature halg k.id
                 (0x30 :: resp.raw.length :: resp.raw)))
    else (k2, .error (.hardwareFault resp.status))

/-- The mutable fields of `crypto.RSAKey` (including the `_Key` mixin
fields). -/
structure RSAKey where
  id : Nat
  key_usage : Option (List String)
  key_size : Option Nat
  pkey : Option (List Nat)
  key : Option (List Nat)
  deriving DecidableEq, Repr

/-- `crypto.RSAKey.__init__` (lines 311-318): raises `ValueError` unless the
slot id is 0xe0fc or 0xe0fd. -/
def RSAKey.construct (key_id : Nat) : Except Err RSAKey :=
  if key_id ≠ 0xe0fc ∧ key_id ≠ 0xe0fd then
    .error (.invalidSlot key_id)
  else
    .ok { id := key_id, key_usage := none, key_size := none,
          pkey := none, key := none }

/-- The validation phase of `crypto.RSAKey.generate` (lines 348-394):
resolves the usage list, checks `key_size in {1024, 2048}`, selects the key
type code, and assembles the hardware call with the caller's export flag. -/
def RSAKey.genCall (k : RSAKey) (key_size : Nat)
    (key_usage : Option (List String)) (exportKey : Bool) :
    Except Err (List String × GenCall) :=
  match resolveUsage rsaAllowedUsage key_usage with
  | .error e => .error e
  | .ok ku =>
    if key_size ∉ ([1024, 2048] : List Nat) then
      .error (.unsupportedKeySize key_size)
    else .ok (ku, { ctype := rsaKeyType key_size, usage_mask := usageMask ku,
                    exportFlag := exportKey, key_id := k.id })

/-- `crypto.RSAKey.generate` (lines 324-415): validates, invokes the
hardware, and on status 0 binds `rsa_header + pub_key_bytes`, the usage
list, the key size, and the private-key bytes when export was requested; a
non-zero status raises `IOError` carrying the code, leaving the object as it
was. -/
def RSAKey.generate (k : RSAKey) (key_size : Nat)
    (key_usage : Option (List String)) (exportKey : Bool)
    (hw : GenCall → HwKeyGen) : RSAKey × Except Err RSAKey :=
  match k.genCall key_size key_usage exportKey with
  | .error e => (k, .error e)
  | .ok (ku, call) =>
    let resp := hw call
    if resp.status = 0 then
      let k2 := { k with
        pkey := some (rsaHeader key_size ++ resp.pubkey)
        key_usage := some ku
        key_size := some key_size
        key := if exportKey = true then some resp.priv else k.key }
      (k2, .ok k2)
    else (k, .error (.hardwareFault resp.status))

/-- `crypto.RSAKey.pkcs1v15_sign` (lines 417-471): for `'sha256'` builds a
scheme-0x01 call with a 32-byte digest, for `'sha384'` a scheme-0x02 call
with a 48-byte digest, and for every other hash algorithm name raises
`ValueError` before any hardware call; on status 0 the signature bytes are
the raw buffer bytes of the transport-reported length, unmodified. -/
def RSAKey.pkcs1v15_sign (hashImpl : String → List Nat → List Nat)
    (k : RSAKey) (data : List Nat) (hash_algorithm : String)
    (hw : RsaSignCall → HwSign) : RSAKey × Except Err SignatureValue :=
  if hash_algorithm = "sha256" then
    let resp := hw { sign_scheme := 0x01, digest := hashImpl "sha256" data,
                     digest_len := 32, key_id := k.id }
    if resp.status = 0 then
      (k, .ok (mkPkcs1v15Signature hash_algorithm k.id resp.raw))
    else (k, .error (.hardwareFault resp.status))
  else if hash_algorithm = "sha384" then
    let resp := hw { sign_scheme := 0x02, digest := hashImpl "sha384" data,
                     digest_len := 48, key_id := k.id }
    if resp.status = 0 then
      (k, .ok (mkPkcs1v15Signature hash_algorithm k.id resp.raw))
    else (k, .error (.hardwareFault resp.status))
  else (k, .error (.unsupportedHashAlgorithm hash_algorithm))

end crypto

/-! ## Helper lemmas -/

/-- The usage loop accepts a list whose entries all lie in the allowed dict
and collects it unchanged. -/
theorem resolveUsageList_ok (allowed : List String) :
    ∀ (S : List String), (∀ g ∈ S, g ∈ allowed) →
      resolveUsageList allowed S = .ok S
  | [], _ => by simp [resolveUsageList]
  | g :: S, h => by
      have hg : g ∈ allowed := h g (by simp)
      have ih := resolveUsageList_ok allowed S (fun x hx => h x (by simp [hx]))
      simp [resolveUsageList, hg, ih]

/-- The usage loop raises at the first entry outside the allowed dict. -/
theorem resolveUsageList_firstBad (allowed : List String) :
    ∀ (pre : List String) (f : String) (post : List String),
      f ∉ allowed → (∀ g ∈ pre, g ∈ allowed) →
      resolveUsageList allowed (pre ++ f :: post) =
        .error (.unsupportedUsageFlag f)
  | [], f, post, hf, _ => by simp [resolveUsageList, hf]
  | g :: pre, f, post, hf, hpre => by
      have hg : g ∈ allowed := hpre g (by simp)
      have ih := resolveUsageList_firstBad allowed pre f post hf
        (fun x hx => hpre x (by simp [hx]))
      simp [resolveUsageList, hg, ih]

/-- Usage bitmask round-trip over the eccAllowedUsage domain: for a duplicate-free
request drawn from the domain, the mask byte equals the plain sum of the
per-flag bit values and decoding it recovers exactly the requested flags. -/
theorem usage_roundtrip_ecc (S : List String) (hnd : S.Nodup)
    (hsub : ∀ g ∈ S, g ∈ eccAllowedUsage) :
    usageMask S = (S.map usageBit).sum ∧
    (∀ f, f ∈ decodeUsage eccAllowedUsage (usageMask S) ↔ f ∈ S) := by
  have hperm : S.Perm (eccAllowedUsage.filter (fun g => decide (g ∈ S))) := by
    rw [List.perm_ext_iff_of_nodup hnd (List.Nodup.filter _ (by decide))]
    intro a
    simp only [List.mem_filter, decide_eq_true_eq]
    exact ⟨fun ha => ⟨hsub a ha, ha⟩, fun ha => ha.2⟩
  have hsum : (S.map usageBit).sum =
      ((eccAllowedUsage.filter (fun g => decide (g ∈ S))).map usageBit).sum :=
    (hperm.map usageBit).sum_eq
  by_cases h1 : "key_agreement" ∈ S <;> by_cases h2 : "authentication" ∈ S <;> by_cases h3 : "signature" ∈ S
  · have hflt :
        eccAllowedUsage.filter (fun g => decide (g ∈ S)) = ["key_agreement", "authentication", "signature"] := by
      simp [eccAllowedUsage, h1, h2, h3]
    rw [hflt] at hsum
    have hm : usageMask S = 49 := by
      unfold usageMask
      rw [hsum]
      decide
    refine ⟨?_, ?_⟩
    · unfold usageMask
      rw [hsum]
      decide
    · intro f
      rw [hm]
      have hd : decodeUsage eccAllowedUsage 49 = ["key_agreement", "authentication", "signature"] := by decide
      rw [hd]
      constructor
      · intro hf
        simp only [List.mem_cons, List.not_mem_nil, or_false] at hf
        rcases hf with rfl | rfl | rfl
        · exact h1
        · exact h2
        · exact h3
      · intro hf
        have hfa := hsub f hf
        simp only [eccAllowedUsage, List.mem_cons, List.not_mem_nil, or_false] at hfa
        rcases hfa with rfl | rfl | rfl
        · simp
        · simp
        · simp
  · have hflt :
        eccAllowedUsage.filter (fun g => decide (g ∈ S)) = ["key_agreement", "authentication"] := by
      simp [eccAllowedUsage, h1, h2, h3]
    rw [hflt] at hsum
    have hm : usageMask S = 33 := by
      unfold usageMask
      rw [hsum]
      decide
    refine ⟨?_, ?_⟩
    · unfold usageMask
      rw [hsum]
      decide
    · intro f
      rw [hm]
      have hd : decodeUsage eccAllowedUsage 33 = ["key_agreement", "authentication"] := by decide
      rw [hd]
      constructor
      · intro hf
        simp only [List.mem_cons, List.not_mem_nil, or_false] at hf
        rcases hf with rfl | rfl
        · exact h1
        · exact h2
      · intro hf
        have hfa := hsub f hf
        simp only [eccAllowedUsage, List.mem_cons, List.not_mem_nil, or_false] at hfa
        rcases hfa with rfl | rfl | rfl
        · simp
        · simp
        · exact absurd hf h3
  · have hflt :
        eccAllowedUsage.filter (fun g => decide (g ∈ S)) = ["key_agreement", "signature"] := by
      simp [eccAllowedUsage, h1, h2, h3]
    rw [hflt] at hsum
    have hm : usageMask S = 48 := by
      unfold usageMask
      rw [hsum]
      decide
    refine ⟨?_, ?_⟩
    · unfold usageMask
      rw [hsum]
      decide
    · intro f
      rw [hm]
      have hd : decodeUsage eccAllowedUsage 48 = ["key_agreement", "signature"] := by decide
      rw [hd]
      constructor
      · intro hf
        simp only [List.mem_cons, List.not_mem_nil, or_false] at hf
        rcases hf with rfl | rfl
        · exact h1
        · exact h3
      · intro hf
        have hfa := hsub f hf
        simp only [eccAllowedUsage, List.mem_cons, List.not_mem_nil, or_false] at hfa
        rcases hfa with rfl | rfl | rfl
        · simp
        · exact absurd hf h2
        · simp
  · have hflt :
        eccAllowedUsage.filter (fun g => decide (g ∈ S)) = ["key_agreement"] := by
      simp [eccAllowedUsage, h1, h2, h3]
    rw [hflt] at hsum
    have hm : usageMask S = 32 := by
      unfold usageMask
      rw [hsum]
      decide
    refine ⟨?_, ?_⟩
    · unfold usageMask
      rw [hsum]
      decide
    · intro f
      rw [hm]
      have hd : decodeUsage eccAllowedUsage 32 = ["key_agreement"] := by decide
      rw [hd]
      constructor
      · intro hf
        simp only [List.mem_cons, List.not_mem_nil, or_false] at hf
        rcases hf with rfl
        exact h1
      · intro hf
        have hfa := hsub f hf
        simp only [eccAllowedUsage, List.mem_cons, List.not_mem_nil, or_false] at hfa
        rcases hfa with rfl | rfl | rfl
        · simp
        · exact absurd hf h2
        · exact absurd hf h3
  · have hflt :
        eccAllowedUsage.filter (fun g => decide (g ∈ S)) = ["authentication", "signature"] := by
      simp [eccAllowedUsage, h1, h2, h3]
    rw [hflt] at hsum
    have hm : usageMask S = 17 := by
      unfold usageMask
      rw [hsum]
      decide
    refine ⟨?_, ?_⟩
    · unfold usageMask
      rw [hsum]
      decide
    · intro f
      rw [hm]
      have hd : decodeUsage eccAllowedUsage 17 = ["authentication", "signature"] := by decide
      rw [hd]
      constructor
      · intro hf
        simp only [List.mem_cons, List.not_mem_nil, or_false] at hf
        rcases hf with rfl | rfl
        · exact h2
        · exact h3
      · intro hf
        have hfa := hsub f hf
        simp only [eccAllowedUsage, List.mem_cons, List.not_mem_nil, or_false] at hfa
        rcases hfa with rfl | rfl | rfl
        · exact absurd hf h1
        · simp
        · simp
  · have hflt :
        eccAllowedUsage.filter (fun g => decide (g ∈ S)) = ["authentication"] := by
      simp [eccAllowedUsage, h1, h2, h3]
    rw [hflt] at hsum
    have hm : usageMask S = 1 := by
      unfold usageMask
      rw [hsum]
      decide
    refine ⟨?_, ?_⟩
    · unfold usageMask
      rw [hsum]
      decide
    · intro f
      rw [hm]
      have hd : decodeUsage eccAllowedUsage 1 = ["authentication"] := by decide
      rw [hd]
      constructor
      · intro hf
        simp only [List.mem_cons, List.not_mem_nil, or_false] at hf
        rcases hf with rfl
        exact h2
      · intro hf
        have hfa := hsub f hf
        simp only [eccAllowedUsage, List.mem_cons, List.not_mem_nil, or_false] at hfa
        rcases hfa with rfl | rfl | rfl
        · exact absurd hf h1
        · simp
        · exact absurd hf h3
  · have hflt :
        eccAllowedUsage.filter (fun g => decide (g ∈ S)) = ["signature"] := by
      simp [eccAllowedUsage, h1, h2, h3]
    rw [hflt] at hsum
    have hm : usageMask S = 16 := by
      unfold usageMask
      rw [hsum]
      decide
    refine ⟨?_, ?_⟩
    · unfold usageMask
      rw [hsum]
      decide
    · intro f
      rw [hm]
      have hd : decodeUsage eccAllowedUsage 16 = ["signature"] := by decide
      rw [hd]
      constructor
      · intro hf
        simp only [List.mem_cons, List.not_mem_nil, or_false] at hf
        rcases hf with rfl
        exact h3
      · intro hf
        have hfa := hsub f hf
        simp only [eccAllowedUsage, List.mem_cons, List.not_mem_nil, or_false] at hfa
        rcases hfa with rfl | rfl | rfl
        · exact absurd hf h1
        · exact absurd hf h2
        · simp
  · have hflt :
        eccAllowedUsage.filter (fun g => decide (g ∈ S)) = [] := by
      simp [eccAllowedUsage, h1, h2, h3]
    rw [hflt] at hsum
    have hm : usageMask S = 0 := by
      unfold usageMask
      rw [hsum]
      decide
    refine ⟨?_, ?_⟩
    · unfold usageMask
      rw [hsum]
      decide
    · intro f
      rw [hm]
      have hd : decodeUsage eccAllowedUsage 0 = [] := by decide
      rw [hd]
      constructor
      · intro hf
        exact absurd hf (List.not_mem_nil f)
      · intro hf
        have hfa := hsub f hf
        simp only [eccAllowedUsage, List.mem_cons, List.not_mem_nil, or_false] at hfa
        rcases hfa with rfl | rfl | rfl
        · exact absurd hf h1
        · exact absurd hf h2
        · exact absurd hf h3

/-- Usage bitmask round-trip over the rsaAllowedUsage domain: for a duplicate-free
request drawn from the domain, the mask byte equals the plain sum of the
per-flag bit values and decoding it recovers exactly the requested flags. -/
theorem usage_roundtrip_rsa (S : List String) (hnd : S.Nodup)
    (hsub : ∀ g ∈ S, g ∈ rsaAllowedUsage) :
    usageMask S = (S.map usageBit).sum ∧
    (∀ f, f ∈ decodeUsage rsaAllowedUsage (usageMask S) ↔ f ∈ S) := by
  have hperm : S.Perm (rsaAllowedUsage.filter (fun g => decide (g ∈ S))) := by
    rw [List.perm_ext_iff_of_nodup hnd (List.Nodup.filter _ (by decide))]
    intro a
    simp only [List.mem_filter, decide_eq_true_eq]
    exact ⟨fun ha => ⟨hsub a ha, ha⟩, fun ha => ha.2⟩
  have hsum : (S.map usageBit).sum =
      ((rsaAllowedUsage.filter (fun g => decide (g ∈ S))).map usageBit).sum :=
    (hperm.map usageBit).sum_eq
  by_cases h1 : "key_agreement" ∈ S <;> by_cases h2 : "authentication" ∈ S <;> by_cases h3 : "encryption" ∈ S <;> by_cases h4 : "signature" ∈ S
  · have hflt :
        rsaAllowedUsage.filter (fun g => decide (g ∈ S)) = ["key_agreement", "authentication", "encryption", "signature"] := by
      simp [rsaAllowedUsage, h1, h2, h3, h4]
    rw [hflt] at hsum
    have hm : usageMask S = 51 := by
      unfold usageMask
      rw [hsum]
      decide
    refine ⟨?_, ?_⟩
    · unfold usageMask
      rw [hsum]
      decide
    · intro f
      rw [hm]
      have hd : decodeUsage rsaAllowedUsage 51 = ["key_agreement", "authentication", "encryption", "signature"] := by decide
      rw [hd]
      constructor
      · intro hf
        simp only [List.mem_cons, List.not_mem_nil, or_false] at hf
        rcases hf with rfl | rfl | rfl | rfl
        · exact h1
        · exact h2
        · exact h3
        · exact h4
      · intro hf
        have hfa := hsub f hf
        simp only [rsaAllowedUsage, List.mem_cons, List.not_mem_nil, or_false] at hfa
        rcases hfa with rfl | rfl | rfl | rfl
        · simp
        · simp
        · simp
        · simp
  · have hflt :
        rsaAllowedUsage.filter (fun g => decide (g ∈ S)) = ["key_agreement", "authentication", "encryption"] := by
      simp [rsaAllowedUsage, h1, h2, h3, h4]
    rw [hflt] at hsum
    have hm : usageMask S = 35 := by
      unfold usageMask
      rw [hsum]
      decide
    refine ⟨?_, ?_⟩
    · unfold usageMask
      rw [hsum]
      decide
    · intro f
      rw [hm]
      have hd : decodeUsage rsaAllowedUsage 35 = ["key_agreement", "authentication", "encryption"] := by decide
      rw [hd]
      constructor
      · intro hf
        simp only [List.mem_cons, List.not_mem_nil, or_false] at hf
        rcases hf with rfl | rfl | rfl
        · exact h1
        · exact h2
        · exact h3
      · intro hf
        have hfa := hsub f hf
        simp only [rsaAllowedUsage, List.mem_cons, List.not_mem_nil, or_false] at hfa
        rcases hfa with rfl | rfl | rfl | rfl
        · simp
        · simp
        · simp
        · exact absurd hf h4
  · have hflt :
        rsaAllowedUsage.filter (fun g => decide (g ∈ S)) = ["key_agreement", "authentication", "signature"] := by
      simp [rsaAllowedUsage, h1, h2, h3, h4]
    rw [hflt] at hsum
    have hm : usageMask S = 49 := by
      unfold usageMask
      rw [hsum]
      decide
    refine ⟨?_, ?_⟩
    · unfold usageMask
      rw [hsum]
      decide
    · intro f
      rw [hm]
      have hd : decodeUsage rsaAllowedUsage 49 = ["key_agreement", "authentication", "signature"] := by decide
      rw [hd]
      constructor
      · intro hf
        simp only [List.mem_cons, List.not_mem_nil, or_false] at hf
        rcases hf with rfl | rfl | rfl
        · exact h1
        · exact h2
        · exact h4
      · intro hf
        have hfa := hsub f hf
        simp only [rsaAllowedUsage, List.mem_cons, List.not_mem_nil, or_false] at hfa
        rcases hfa with rfl | rfl | rfl | rfl
        · simp
        · simp
        · exact absurd hf h3
        · simp
  · have hflt :
        rsaAllowedUsage.filter (fun g => decide (g ∈ S)) = ["key_agreement", "authentication"] := by
      simp [rsaAllowedUsage, h1, h2, h3, h4]
    rw [hflt] at hsum
    have hm : usageMask S = 33 := by
      unfold usageMask
      rw [hsum]
      decide
    refine ⟨?_, ?_⟩
    · unfold usageMask
      rw [hsum]
      decide
    · intro f
      rw [hm]
      have hd : decodeUsage rsaAllowedUsage 33 = ["key_agreement", "authentication"] := by decide
      rw [hd]
      constructor
      · intro hf
        simp only [List.mem_cons, List.not_mem_nil, or_false] at hf
        rcases hf with rfl | rfl
        · exact h1
        · exact h2
      · intro hf
        have hfa := hsub f hf
        simp only [rsaAllowedUsage, List.mem_cons, List.not_mem_nil, or_false] at hfa
        rcases hfa with rfl | rfl | rfl | rfl
        · simp
        · simp
        · exact absurd hf h3
        · exact absurd hf h4
  · have hflt :
        rsaAllowedUsage.filter (fun g => decide (g ∈ S)) = ["key_agreement", "encryption", "signature"] := by
      simp [rsaAllowedUsage, h1, h2, h3, h4]
    rw [hflt] at hsum
    have hm : usageMask S = 50 := by
      unfold usageMask
      rw [hsum]
      decide
    refine ⟨?_, ?_⟩
    · unfold usageMask
      rw [hsum]
      decide
    · intro f
      rw [hm]
      have hd : decodeUsage rsaAllowedUsage 50 = ["key_agreement", "encryption", "signature"] := by decide
      rw [hd]
      constructor
      · intro hf
        simp only [List.mem_cons, List.not_mem_nil, or_false] at hf
        rcases hf with rfl | rfl | rfl
        · exact h1
        · exact h3
        · exact h4
      · intro hf
        have hfa := hsub f hf
        simp only [rsaAllowedUsage, List.mem_cons, List.not_mem_nil, or_false] at hfa
        rcases hfa with rfl | rfl | rfl | rfl
        · simp
        · exact absurd hf h2
        · simp
        · simp
  · have hflt :
        rsaAllowedUsage.filter (fun g => decide (g ∈ S)) = ["key_agreement", "encryption"] := by
      simp [rsaAllowedUsage, h1, h2, h3, h4]
    rw [hflt] at hsum
    have hm : usageMask S = 34 := by
      unfold usageMask
      rw [hsum]
      decide
    refine ⟨?_, ?_⟩
    · unfold usageMask
      rw [hsum]
      decide
    · intro f
      rw [hm]
      have hd : decodeUsage rsaAllowedUsage 34 = ["key_agreement", "encryption"] := by decide
      rw [hd]
      constructor
      · intro hf
        simp only [List.mem_cons, List.not_mem_nil, or_false] at hf
        rcases hf with rfl | rfl
        · exact h1
        · exact h3
      · intro hf
        have hfa := hsub f hf
        simp only [rsaAllowedUsage, List.mem_cons, List.not_mem_nil, or_false] at hfa
        rcases hfa with rfl | rfl | rfl | rfl
        · simp
        · exact absurd hf h2
        · simp
        · exact absurd hf h4
  · have hflt :
        rsaAllowedUsage.filter (fun g => decide (g ∈ S)) = ["key_agreement", "signature"] := by
      simp [rsaAllowedUsage, h1, h2, h3, h4]
    rw [hflt] at hsum
    have hm : usageMask S = 48 := by
      unfold usageMask
      rw [hsum]
      decide
    refine ⟨?_, ?_⟩
    · unfold usageMask
      rw [hsum]
      decide
    · intro f
      rw [hm]
      have hd : decodeUsage rsaAllowedUsage 48 = ["key_agreement", "signature"] := by decide
      rw [hd]
      constructor
      · intro hf
        simp only [List.mem_cons, List.not_mem_nil, or_false] at hf
        rcases hf with rfl | rfl
        · exact h1
        · exact h4
      · intro hf
        have hfa := hsub f hf
        simp only [rsaAllowedUsage, List.mem_cons, List.not_mem_nil, or_false] at hfa
        rcases hfa with rfl | rfl | rfl | rfl
        · simp
        · exact absurd hf h2
        · exact absurd hf h3
        · simp
  · have hflt :
        rsaAllowedUsage.filter (fun g => decide (g ∈ S)) = ["key_agreement"] := by
      simp [rsaAllowedUsage, h1, h2, h3, h4]
    rw [hflt] at hsum
    have hm : usageMask S = 32 := by
      unfold usageMask
      rw [hsum]
      decide
    refine ⟨?_, ?_⟩
    · unfold usageMask
      rw [hsum]
      decide
    · intro f
      rw [hm]
      have hd : decodeUsage rsaAllowedUsage 32 = ["key_agreement"] := by decide
      rw [hd]
      constructor
      · intro hf
        simp only [List.mem_cons, List.not_mem_nil, or_false] at hf
        rcases hf with rfl
        exact h1
      · intro hf
        have hfa := hsub f hf
        simp only [rsaAllowedUsage, List.mem_cons, List.not_mem_nil, or_false] at hfa
        rcases hfa with rfl | rfl | rfl | rfl
        · simp
        · exact absurd hf h2
        · exact absurd hf h3
        · exact absurd hf h4
  · have hflt :
        rsaAllowedUsage.filter (fun g => decide (g ∈ S)) = ["authentication", "encryption", "signature"] := by
      simp [rsaAllowedUsage, h1, h2, h3, h4]
    rw [hflt] at hsum
    have hm : usageMask S = 19 := by
      unfold usageMask
      rw [hsum]
      decide
    refine ⟨?_, ?_⟩
    · unfold usageMask
      rw [hsum]
      decide
    · intro f
      rw [hm]
      have hd : decodeUsage rsaAllowedUsage 19 = ["authentication", "encryption", "signature"] := by decide
      rw [hd]
      constructor
      · intro hf
        simp only [List.mem_cons, List.not_mem_nil, or_false] at hf
        rcases hf with rfl | rfl | rfl
        · exact h2
        · exact h3
        · exact h4
      · intro hf
        have hfa := hsub f hf
        simp only [rsaAllowedUsage, List.mem_cons, List.not_mem_nil, or_false] at hfa
        rcases hfa with rfl | rfl | rfl | rfl
        · exact absurd hf h1
        · simp
        · simp
        · simp
  · have hflt :
        rsaAllowedUsage.filter (fun g => decide (g ∈ S)) = ["authentication", "encryption"] := by
      simp [rsaAllowedUsage, h1, h2, h3, h4]
    rw [hflt] at hsum
    have hm : usageMask S = 3 := by
      unfold usageMask
      rw [hsum]
      decide
    refine ⟨?_, ?_⟩
    · unfold usageMask
      rw [hsum]
      decide
    · intro f
      rw [hm]
      have hd : decodeUsage rsaAllowedUsage 3 = ["authentication", "encryption"] := by decide
      rw [hd]
      constructor
      · intro hf
        simp only [List.mem_cons, List.not_mem_nil, or_false] at hf
        rcases hf with rfl | rfl
        · exact h2
        · exact h3
      · intro hf
        have hfa := hsub f hf
        simp only [rsaAllowedUsage, List.mem_cons, List.not_mem_nil, or_false] at hfa
        rcases hfa with rfl | rfl | rfl | rfl
        · exact absurd hf h1
        · simp
        · simp
        · exact absurd hf h4
  · have hflt :
        rsaAllowedUsage.filter (fun g => decide (g ∈ S)) = ["authentication", "signature"] := by
      simp [rsaAllowedUsage, h1, h2, h3, h4]
    rw [hflt] at hsum
    have hm : usageMask S = 17 := by
      unfold usageMask
      rw [hsum]
      decide
    refine ⟨?_, ?_⟩
    · unfold usageMask
      rw [hsum]
      decide
    · intro f
      rw [hm]
      have hd : decodeUsage rsaAllowedUsage 17 = ["authentication", "signature"] := by decide
      rw [hd]
      constructor
      · intro hf
        simp only [List.mem_cons, List.not_mem_nil, or_false] at hf
        rcases hf with rfl | rfl
        · exact h2
        · exact h4
      · intro hf
        have hfa := hsub f hf
        simp only [rsaAllowedUsage, List.mem_cons, List.not_mem_nil, or_false] at hfa
        rcases hfa with rfl | rfl | rfl | rfl
        · exact absurd hf h1
        · simp
        · exact absurd hf h3
        · simp
  · have hflt :
        rsaAllowedUsage.filter (fun g => decide (g ∈ S)) = ["authentication"] := by
      simp [rsaAllowedUsage, h1, h2, h3, h4]
    rw [hflt] at hsum
    have hm : usageMask S = 1 := by
      unfold usageMask
      rw [hsum]
      decide
    refine ⟨?_, ?_⟩
    · unfold usageMask
      rw [hsum]
      decide
    · intro f
      rw [hm]
      have hd : decodeUsage rsaAllowedUsage 1 = ["authentication"] := by decide
      rw [hd]
      constructor
      · intro hf
        simp only [List.mem_cons, List.not_mem_nil, or_false] at hf
        rcases hf with rfl
        exact h2
      · intro hf
        have hfa := hsub f hf
        simp only [rsaAllowedUsage, List.mem_cons, List.not_mem_nil, or_false] at hfa
        rcases hfa with rfl | rfl | rfl | rfl
        · exact absurd hf h1
        · simp
        · exact absurd hf h3
        · exact absurd hf h4
  · have hflt :
        rsaAllowedUsage.filter (fun g => decide (g ∈ S)) = ["encryption", "signature"] := by
      simp [rsaAllowedUsage, h1, h2, h3, h4]
    rw [hflt] at hsum
    have hm : usageMask S = 18 := by
      unfold usageMask
      rw [hsum]
      decide
    refine ⟨?_, ?_⟩
    · unfold usageMask
      rw [hsum]
      decide
    · intro f
      rw [hm]
      have hd : decodeUsage rsaAllowedUsage 18 = ["encryption", "signature"] := by decide
      rw [hd]
      constructor
      · intro hf
        simp only [List.mem_cons, List.not_mem_nil, or_false] at hf
        rcases hf with rfl | rfl
        · exact h3
        · exact h4
      · intro hf
        have hfa := hsub f hf
        simp only [rsaAllowedUsage, List.mem_cons, List.not_mem_nil, or_false] at hfa
        rcases hfa with rfl | rfl | rfl | rfl
        · exact absurd hf h1
        · exact absurd hf h2
        · simp
        · simp
  · have hflt :
        rsaAllowedUsage.filter (fun g => decide (g ∈ S)) = ["encryption"] := by
      simp [rsaAllowedUsage, h1, h2, h3, h4]
    rw [hflt] at hsum
    have hm : usageMask S = 2 := by
      unfold usageMask
      rw [hsum]
      decide
    refine ⟨?_, ?_⟩
    · unfold usageMask
      rw [hsum]
      decide
    · intro f
      rw [hm]
      have hd : decodeUsage rsaAllowedUsage 2 = ["encryption"] := by decide
      rw [hd]
      constructor
      · intro hf
        simp only [List.mem_cons, List.not_mem_nil, or_false] at hf
        rcases hf with rfl
        exact h3
      · intro hf
        have hfa := hsub f hf
        simp only [rsaAllowedUsage, List.mem_cons, List.not_mem_nil, or_false] at hfa
        rcases hfa with rfl | rfl | rfl | rfl
        · exact absurd hf h1
        · exact absurd hf h2
        · simp
        · exact absurd hf h4
  · have hflt :
        rsaAllowedUsage.filter (fun g => decide (g ∈ S)) = ["signature"] := by
      simp [rsaAllowedUsage, h1, h2, h3, h4]
    rw [hflt] at hsum
    have hm : usageMask S = 16 := by
      unfold usageMask
      rw [hsum]
      decide
    refine ⟨?_, ?_⟩
    · unfold usageMask
      rw [hsum]
      decide
    · intro f
      rw [hm]
      have hd : decodeUsage rsaAllowedUsage 16 = ["signature"] := by decide
      rw [hd]
      constructor
      · intro hf
        simp only [List.mem_cons, List.not_mem_nil, or_false] at hf
        rcases hf with rfl
        exact h4
      · intro hf
        have hfa := hsub f hf
        simp only [rsaAllowedUsage, List.mem_cons, List.not_mem_nil, or_false] at hfa
        rcases hfa with rfl | rfl | rfl | rfl
        · exact absurd hf h1
        · exact absurd hf h2
        · exact absurd hf h3
        · simp
  · have hflt :
        rsaAllowedUsage.filter (fun g => decide (g ∈ S)) = [] := by
      simp [rsaAllowedUsage, h1, h2, h3, h4]
    rw [hflt] at hsum
    have hm : usageMask S = 0 := by
      unfold usageMask
      rw [hsum]
      decide
    refine ⟨?_, ?_⟩
    · unfold usageMask
      rw [hsum]
      decide
    · intro f
      rw [hm]
      have hd : decodeUsage rsaAllowedUsage 0 = [] := by decide
      rw [hd]
      constructor
      · intro hf
        exact absurd hf (List.not_mem_nil f)
      · intro hf
        have hfa := hsub f hf
        simp only [rsaAllowedUsage, List.mem_cons, List.not_mem_nil, or_false] at hfa
        rcases hfa with rfl | rfl | rfl | rfl
        · exact absurd hf h1
        · exact absurd hf h2
        · exact absurd hf h3
        · exact absurd hf h4

/-! ## Theorems -/

/-- C1: For every successful `ecdsa_sign` call (in `asymmetric.EccKey` and in
`crypto.ECCKey` alike) in which the hardware returns a raw r‖s signature of
length L with L < 128, the encoded signature bytes equal
`0x30 || L || raw_bytes` exactly: first byte 0x30, second byte L, then the L
raw bytes, for a total length of L + 2. -/
theorem C1_ecdsa_der_encoding :
    (∀ (hashImpl : String → List Nat → List Nat) (k : asymmetric.EccKey)
       (data : List Nat) (hw : SignCall → HwSign) (dlen : Nat) (halg : String)
       (resp : HwSign),
       curveDigest k.curve = some (dlen, halg) →
       hw { digest := hashImpl halg data, digest_len := dlen,
            key_id := k.key_id } = resp →
       resp.status = 0 →
       resp.raw.length < 128 →
       (k.ecdsa_sign hashImpl data hw).2 =
         .ok (mkEcdsaSignature halg k.key_id
               (0x30 :: resp.raw.length :: resp.raw)) ∧
       (0x30 :: resp.raw.length :: resp.raw).length = resp.raw.length + 2) ∧
    (∀ (hashImpl : String → List Nat → List Nat) (k : crypto.ECCKey)
       (data : List Nat) (hw : SignCall → HwSign) (dlen : Nat) (halg : String)
       (resp : HwSign),
       curveDigest k.curve = some (dlen, halg) →
       hw { digest := hashImpl halg data, digest_len := dlen,
            key_id := k.id } = resp →
       resp.status = 0 →
       resp.raw.length < 128 →
       (k.ecdsa_sign hashImpl data hw).2 =
         .ok (mkEcdsaSignature halg k.id
               (0x30 :: resp.raw.length :: resp.raw)) ∧
       (0x30 :: resp.raw.length :: resp.raw).length = resp.raw.length + 2) := by
  constructor
  · intro hashImpl k data hw dlen halg resp hmap hcall hst _
    unfold asymmetric.EccKey.ecdsa_sign
    rw [hmap]
    simp only [hcall, hst]
    simp
  · intro hashImpl k data hw dlen halg resp hmap hcall hst _
    unfold crypto.ECCKey.ecdsa_sign
    rw [hmap]
    simp only [hcall, hst]
    simp

/-- Witness for C1 at a concrete key, data and hardware response. -/
theorem C1_ecdsa_der_encoding_witness :
    (asymmetric.EccKey.ecdsa_sign (fun _ _ => List.replicate 32 0)
        { key_id := 0xe0f0, curve := "secp256r1", key_usage := none,
          hash_alg := none, pkey := none }
        [1, 2] (fun _ => { status := 0, raw := [9, 8, 7] })).2 =
      .ok (mkEcdsaSignature "sha256" 0xe0f0 [0x30, 3, 9, 8, 7]) :=
  (C1_ecdsa_der_encoding.1 (fun _ _ => List.replicate 32 0)
    { key_id := 0xe0f0, curve := "secp256r1", key_usage := none,
      hash_alg := none, pkey := none }
    [1, 2] (fun _ => { status := 0, raw := [9, 8, 7] }) 32 "sha256"
    { status := 0, raw := [9, 8, 7] }
    (by decide) rfl rfl (by decide)).1

/-- C3: Key-object construction validates the slot: an ECC key object is
constructed successfully iff the slot id is one of the four fixed ECC slots
or among the chip's session slot values, and an RSA key object iff the slot
id is 0xe0fc or 0xe0fd; for every other slot id construction raises
InvalidSlot and no object is produced. Proved for both modules by a complete
characterization of the constructors. -/
theorem C3_slot_validation :
    (∀ (chip : Chip) (key_id : Nat) (curve : String),
       asymmetric.EccKey.construct chip key_id curve =
         if key_id ∈ eccFixedSlots ∨ key_id ∈ chip.sessionIds then
           .ok { key_id := key_id, curve := curve, key_usage := none,
                 hash_alg := none, pkey := none }
         else .error (.invalidSlot key_id)) ∧
    (∀ (key_id : Nat),
       asymmetric.RsaKey.construct key_id =
         if key_id = 0xe0fc ∨ key_id = 0xe0fd then
           .ok { key_id := key_id, key_usage := none, key_size := none,
                 pkey := none }
         else .error (.invalidSlot key_id)) ∧
    (∀ (chip : Chip) (key_id : Nat) (curve : String),
       crypto.ECCKey.construct chip key_id curve =
         if key_id ∈ eccFixedSlots ∨ key_id ∈ chip.sessionIds then
           .ok { id := key_id, curve := curve, key_usage := none,
                 hash_alg := none, pkey := none, key := none }
         else .error (.invalidSlot key_id)) ∧
    (∀ (key_id : Nat),
       crypto.RSAKey.construct key_id =
         if key_id = 0xe0fc ∨ key_id = 0xe0fd then
           .ok { id := key_id, key_usage := none, key_size := none,
                 pkey := none, key := none }
         else .error (.invalidSlot key_id)) := by
  refine ⟨?_, ?_, ?_, ?_⟩
  · intro chip kid curve
    by_cases h : kid ∈ eccFixedSlots ∨ kid ∈ chip.sessionIds
    · have h2 : ¬(kid ∉ eccFixedSlots ∧ kid ∉ chip.sessionIds) := by tauto
      simp [asymmetric.EccKey.construct, h, h2]
    · have h2 : kid ∉ eccFixedSlots ∧ kid ∉ chip.sessionIds := by tauto
      simp [asymmetric.EccKey.construct, h, h2]
  · intro kid
    by_cases h : kid = 0xe0fc ∨ kid = 0xe0fd
    · have h2 : ¬(kid ≠ 0xe0fc ∧ kid ≠ 0xe0fd) := by tauto
      simp [asymmetric.RsaKey.construct, h, h2]
    · have h2 : kid ≠ 0xe0fc ∧ kid ≠ 0xe0fd := by tauto
      simp [asymmetric.RsaKey.construct, h, h2]
  · intro chip kid curve
    by_cases h : kid ∈ eccFixedSlots ∨ kid ∈ chip.sessionIds
    · have h2 : ¬(kid ∉ eccFixedSlots ∧ kid ∉ chip.sessionIds) := by tauto
      simp [crypto.ECCKey.construct, h, h2]
    · have h2 : kid ∉ eccFixedSlots ∧ kid ∉ chip.sessionIds := by tauto
      simp [crypto.ECCKey.construct, h, h2]
  · intro kid
    by_cases h : kid = 0xe0fc ∨ kid = 0xe0fd
    · have h2 : ¬(kid ≠ 0xe0fc ∧ kid ≠ 0xe0fd) := by tauto
      simp [crypto.RSAKey.construct, h, h2]
    · have h2 : kid ≠ 0xe0fc ∧ kid ≠ 0xe0fd := by tauto
      simp [crypto.RSAKey.construct, h, h2]

/-- C9: `random(n)` returns the n hardware-produced random bytes when the
transport status code is zero, and for every non-zero transport status it
returns an empty byte string rather than raising an error. -/
theorem C9_random_swallows_fault :
    ∀ (n : Nat) (trng : Bool) (hw : Nat → RngKind → HwRandom)
      (resp : HwRandom),
      (if trng = true then hw n RngKind.trng else hw n RngKind.drng) = resp →
      (resp.status = 0 → crypto.random n trng hw = resp.bytes) ∧
      (resp.status = 0 → resp.bytes.length = n →
        (crypto.random n trng hw).length = n) ∧
      (resp.status ≠ 0 → crypto.random n trng hw = []) := by
  intro n trng hw resp hresp
  refine ⟨?_, ?_, ?_⟩
  · intro h0
    simp [crypto.random, hresp, h0]
  · intro h0 hlen
    simp [crypto.random, hresp, h0, hlen]
  · intro hne
    simp [crypto.random, hresp, hne]

/-- Witness for C9 at a concrete size and hardware response, on both the
success and the failure side. -/
theorem C9_random_swallows_fault_witness :
    crypto.random 3 true (fun _ _ => { status := 0, bytes := [5, 6, 7] }) =
      [5, 6, 7] ∧
    crypto.random 3 false (fun _ _ => { status := 21, bytes := [5, 6, 7] }) =
      [] :=
  ⟨(C9_random_swallows_fault 3 true
      (fun _ _ => { status := 0, bytes := [5, 6, 7] })
      { status := 0, bytes := [5, 6, 7] } rfl).1 rfl,
   (C9_random_swallows_fault 3 false
      (fun _ _ => { status := 21, bytes := [5, 6, 7] })
      { status := 21, bytes := [5, 6, 7] } rfl).2.2 (by decide)⟩

/-- C10: `ecdsa_sign` assigns the key object's hash_alg field (to the digest
algorithm selected from the bound curve) before invoking the hardware, so
even when the hardware returns a non-zero status and the call fails with a
HardwareFault, the key object's hash_alg field has already been mutated to
the new value. Proved for both modules. -/
theorem C10_hash_alg_mutated_on_fault :
    (∀ (hashImpl : String → List Nat → List Nat) (k : asymmetric.EccKey)
       (data : List Nat) (hw : SignCall → HwSign) (dlen : Nat) (halg : String)
       (resp : HwSign),
       curveDigest k.curve = some (dlen, halg) →
       hw { digest := hashImpl halg data, digest_len := dlen,
            key_id := k.key_id } = resp →
       resp.status ≠ 0 →
       (k.ecdsa_sign hashImpl data hw).1.hash_alg = some halg ∧
       (k.ecdsa_sign hashImpl data hw).2 =
         .error (.hardwareFault resp.status)) ∧
    (∀ (hashImpl : String → List Nat → List Nat) (k : crypto.ECCKey)
       (data : List Nat) (hw : SignCall → HwSign) (dlen : Nat) (halg : String)
       (resp : HwSign),
       curveDigest k.curve = some (dlen, halg) →
       hw { digest := hashImpl halg data, digest_len := dlen,
            key_id := k.id } = resp →
       resp.status ≠ 0 →
       (k.ecdsa_sign hashImpl data hw).1.hash_alg = some halg ∧
       (k.ecdsa_sign hashImpl data hw).2 =
         .error (.hardwareFault resp.status)) := by
  constructor
  · intro hashImpl k data hw dlen halg resp hmap hcall hne
    unfold asymmetric.EccKey.ecdsa_sign
    rw [hmap]
    simp only [hcall]
    simp [hne]
  · intro hashImpl k data hw dlen halg resp hmap hcall hne
    unfold crypto.ECCKey.ecdsa_sign
    rw [hmap]
    simp only [hcall]
    simp [hne]

/-- Witness for C10 at a concrete key and failing hardware response. -/
theorem C10_hash_alg_mutated_on_fault_witness :
    (crypto.ECCKey.ecdsa_sign (fun _ _ => [])
        { id := 0xe0f1, curve := "secp384r1", key_usage := none,
          hash_alg := none, pkey := none, key := none }
        [3] (fun _ => { status := 257, raw := [] })).1.hash_alg =
      some "sha384" :=
  (C10_hash_alg_mutated_on_fault.2 (fun _ _ => [])
    { id := 0xe0f1, curve := "secp384r1", key_usage := none,
      hash_alg := none, pkey := none, key := none }
    [3] (fun _ => { status := 257, raw := [] }) 48 "sha384"
    { status := 257, raw := [] } (by decide) rfl (by decide)).1

/-- C2: For every call to generate (ECC or RSA, in both modules) in which the
transport returns a non-zero status code, the call fails with a HardwareFault
carrying that code and the key object is returned exactly as it was, so its
public-key and private-key fields remain in their prior (absent) state. -/
theorem C2_generate_fault_no_mutation :
    (∀ (chip : Chip) (k : asymmetric.EccKey) (curve : String)
       (ku : Option (List String)) (hw : GenCall → HwKeyGen)
       (kuL : List String) (call : GenCall) (resp : HwKeyGen),
       k.genCall chip curve ku = .ok (kuL, call) →
       hw call = resp →
       resp.status ≠ 0 →
       k.generate chip curve ku hw =
         (k, .error (.hardwareFault resp.status))) ∧
    (∀ (k : asymmetric.RsaKey) (key_size : Nat) (ku : Option (List String))
       (hw : GenCall → HwKeyGen) (kuL : List String) (call : GenCall)
       (resp : HwKeyGen),
       k.genCall key_size ku = .ok (kuL, call) →
       hw call = resp →
       resp.status ≠ 0 →
       k.generate key_size ku hw =
         (k, .error (.hardwareFault resp.status))) ∧
    (∀ (chip : Chip) (k : crypto.ECCKey) (curve : String)
       (ku : Option (List String)) (exportKey : Bool)
       (hw : GenCall → HwKeyGen) (kuL : List String) (call : GenCall)
       (resp : HwKeyGen),
       k.genCall chip curve ku exportKey = .ok (kuL, call) →
       hw call = resp →
       resp.status ≠ 0 →
       k.generate chip curve ku exportKey hw =
         (k, .error (.hardwareFault resp.status))) ∧
    (∀ (k : crypto.RSAKey) (key_size : Nat) (ku : Option (List String))
       (exportKey : Bool) (hw : GenCall → HwKeyGen) (kuL : List String)
       (call : GenCall) (resp : HwKeyGen),
       k.genCall key_size ku exportKey = .ok (kuL, call) →
       hw call = resp →
       resp.status ≠ 0 →
       k.generate key_size ku exportKey hw =
         (k, .error (.hardwareFault resp.status))) := by
  refine ⟨?_, ?_, ?_, ?_⟩
  · intro chip k curve ku hw kuL call resp hok hcall hne
    unfold asymmetric.EccKey.generate
    rw [hok]
    simp only [hcall]
    simp [hne]
  · intro k key_size ku hw kuL call resp hok hcall hne
    unfold asymmetric.RsaKey.generate
    rw [hok]
    simp only [hcall]
    simp [hne]
  · intro chip k curve ku exportKey hw kuL call resp hok hcall hne
    unfold crypto.ECCKey.generate
    rw [hok]
    simp only [hcall]
    simp [hne]
  · intro k key_size ku exportKey hw kuL call resp hok hcall hne
    unfold crypto.RSAKey.generate
    rw [hok]
    simp only [hcall]
    simp [hne]

/-- Witness for C2: a concrete ECC generate and a concrete RSA generate under
a failing transport, each returning the untouched key object (absent
public/private key fields) and the fault code. -/
theorem C2_generate_fault_no_mutation_witness :
    crypto.ECCKey.generate { sessionIds := [], curvesValues := [3] }
        { id := 0xe0f0, curve := "secp256r1", key_usage := none,
          hash_alg := none, pkey := none, key := none }
        "secp256r1" none false
        (fun _ => { status := 5, pubkey := [1], priv := [2] }) =
      ({ id := 0xe0f0, curve := "secp256r1", key_usage := none,
         hash_alg := none, pkey := none, key := none },
       .error (.hardwareFault 5)) ∧
    asymmetric.RsaKey.generate
        { key_id := 0xe0fc, key_usage := none, key_size := none,
          pkey := none }
        2048 none
        (fun _ => { status := 7, pubkey := [1], priv := [] }) =
      ({ key_id := 0xe0fc, key_usage := none, key_size := none,
         pkey := none },
       .error (.hardwareFault 7)) :=
  ⟨C2_generate_fault_no_mutation.2.2.1
      { sessionIds := [], curvesValues := [3] }
      { id := 0xe0f0, curve := "secp256r1", key_usage := none,
        hash_alg := none, pkey := none, key := none }
      "secp256r1" none false
      (fun _ => { status := 5, pubkey := [1], priv := [2] })
      ["key_agreement", "signature"]
      { ctype := 3, usage_mask := 48, exportFlag := false, key_id := 0xe0f0 }
      { status := 5, pubkey := [1], priv := [2] }
      rfl rfl (by decide),
   C2_generate_fault_no_mutation.2.1
      { key_id := 0xe0fc, key_usage := none, key_size := none, pkey := none }
      2048 none
      (fun _ => { status := 7, pubkey := [1], priv := [] })
      ["key_agreement", "signature"]
      { ctype := 0x42, usage_mask := 48, exportFlag := false,
        key_id := 0xe0fc }
      { status := 7, pubkey := [1], priv := [] }
      rfl rfl (by decide)⟩

/-- C5: For RSA generate (both modules) with key_size in {1024, 2048} that
succeeds, the key object's public-key bytes equal the fixed DER header
constant for that key size concatenated with the raw public-key bytes
returned by the transport — in particular for key_size = 2048 the selected
header is the 2048-bit DER header constant, so the bytes begin with it; for
key_size outside {1024, 2048} (with valid usage) generate fails with
UnsupportedKeySize regardless of the transport oracle, i.e. before any
hardware call. -/
theorem C5_rsa_header_and_key_size :
    (∀ (k : asymmetric.RsaKey) (key_size : Nat) (ku : Option (List String))
       (hw : GenCall → HwKeyGen) (kuL : List String) (call : GenCall)
       (resp : HwKeyGen),
       k.genCall key_size ku = .ok (kuL, call) →
       hw call = resp →
       resp.status = 0 →
       (k.generate key_size ku hw).1.pkey =
         some (rsaHeader key_size ++ resp.pubkey) ∧
       (k.generate key_size ku hw).2 = .ok (k.generate key_size ku hw).1) ∧
    (∀ (k : crypto.RSAKey) (key_size : Nat) (ku : Option (List String))
       (exportKey : Bool) (hw : GenCall → HwKeyGen) (kuL : List String)
       (call : GenCall) (resp : HwKeyGen),
       k.genCall key_size ku exportKey = .ok (kuL, call) →
       hw call = resp →
       resp.status = 0 →
       (k.generate key_size ku exportKey hw).1.pkey =
         some (rsaHeader key_size ++ resp.pubkey) ∧
       (k.generate key_size ku exportKey hw).2 =
         .ok (k.generate key_size ku exportKey hw).1) ∧
    rsaHeader 2048 = rsaHeader2048 ∧
    rsaHeader 1024 = rsaHeader1024 ∧
    (∀ (k : asymmetric.RsaKey) (key_size : Nat) (ku : Option (List String))
       (kuL : List String),
       resolveUsage rsaAllowedUsage ku = .ok kuL →
       key_size ∉ ([1024, 2048] : List Nat) →
       ∀ (hw : GenCall → HwKeyGen),
         k.generate key_size ku hw =
           (k, .error (.unsupportedKeySize key_size))) ∧
    (∀ (k : crypto.RSAKey) (key_size : Nat) (ku : Option (List String))
       (exportKey : Bool) (kuL : List String),
       resolveUsage rsaAllowedUsage ku = .ok kuL →
       key_size ∉ ([1024, 2048] : List Nat) →
       ∀ (hw : GenCall → HwKeyGen),
         k.generate key_size ku exportKey hw =
           (k, .error (.unsupportedKeySize key_size))) := by
  refine ⟨?_, ?_, rfl, rfl, ?_, ?_⟩
  · intro k key_size ku hw kuL call resp hok hcall h0
    unfold asymmetric.RsaKey.generate
    rw [hok]
    simp only [hcall]
    simp [h0]
  · intro k key_size ku exportKey hw kuL call resp hok hcall h0
    unfold crypto.RSAKey.generate
    rw [hok]
    simp only [hcall]
    simp [h0]
  · intro k key_size ku kuL hku hsz hw
    unfold asymmetric.RsaKey.generate asymmetric.RsaKey.genCall
    rw [hku]
    simp [hsz]
  · intro k key_size ku exportKey kuL hku hsz hw
    unfold crypto.RSAKey.generate crypto.RSAKey.genCall
    rw [hku]
    simp [hsz]

/-- Witness for C5: a successful 2048-bit generate whose public key is the
2048-bit DER header followed by the transport bytes, and a 512-bit request
failing with UnsupportedKeySize. -/
theorem C5_rsa_header_and_key_size_witness :
    (asymmetric.RsaKey.generate
        { key_id := 0xe0fc, key_usage := none, key_size := none,
          pkey := none }
        2048 none
        (fun _ => { status := 0, pubkey := [0xAA, 0xBB], priv := [] })).1.pkey =
      some (rsaHeader2048 ++ [0xAA, 0xBB]) ∧
    crypto.RSAKey.generate
        { id := 0xe0fd, key_usage := none, key_size := none,
          pkey := none, key := none }
        512 none false
        (fun _ => { status := 0, pubkey := [0xAA], priv := [] }) =
      ({ id := 0xe0fd, key_usage := none, key_size := none,
         pkey := none, key := none },
       .error (.unsupportedKeySize 512)) := by
  refine ⟨?_, ?_⟩
  · have h := (C5_rsa_header_and_key_size.1
      { key_id := 0xe0fc, key_usage := none, key_size := none, pkey := none }
      2048 none
      (fun _ => { status := 0, pubkey := [0xAA, 0xBB], priv := [] })
      ["key_agreement", "signature"]
      { ctype := 0x42, usage_mask := 48, exportFlag := false,
        key_id := 0xe0fc }
      { status := 0, pubkey := [0xAA, 0xBB], priv := [] }
      rfl rfl rfl).1
    rw [h]
    rfl
  · exact C5_rsa_header_and_key_size.2.2.2.2.2
      { id := 0xe0fd, key_usage := none, key_size := none,
        pkey := none, key := none }
      512 none false ["key_agreement", "signature"] rfl (by decide)
      (fun _ => { status := 0, pubkey := [0xAA], priv := [] })

/-- C7: `pkcs1v15_sign` (both modules) accepts exactly the hash algorithms
sha256 and sha384: each of them reaches the hardware and succeeds on a zero
status, and every other hash_algorithm value fails with
UnsupportedHashAlgorithm regardless of the transport oracle, i.e. before any
hardware call is made. -/
theorem C7_pkcs1v15_hash_algorithms :
    (∀ (hashImpl : String → List Nat → List Nat) (k : asymmetric.RsaKey)
       (data : List Nat) (alg : String) (hw : RsaSignCall → HwSign),
       alg ≠ "sha256" → alg ≠ "sha384" →
       k.pkcs1v15_sign hashImpl data alg hw =
         (k, .error (.unsupportedHashAlgorithm alg))) ∧
    (∀ (hashImpl : String → List Nat → List Nat) (k : crypto.RSAKey)
       (data : List Nat) (alg : String) (hw : RsaSignCall → HwSign),
       alg ≠ "sha256" → alg ≠ "sha384" →
       k.pkcs1v15_sign hashImpl data alg hw =
         (k, .error (.unsupportedHashAlgorithm alg))) ∧
    (∀ (hashImpl : String → List Nat → List Nat) (k : asymmetric.RsaKey)
       (data : List Nat) (hw : RsaSignCall → HwSign) (resp : HwSign),
       hw { sign_scheme := 0x01, digest := hashImpl "sha256" data,
            digest_len := 32, key_id := k.key_id } = resp →
       resp.status = 0 →
       (k.pkcs1v15_sign hashImpl data "sha256" hw).2 =
         .ok (mkPkcs1v15Signature "sha256" k.key_id resp.raw)) ∧
    (∀ (hashImpl : String → List Nat → List Nat) (k : asymmetric.RsaKey)
       (data : List Nat) (hw : RsaSignCall → HwSign) (resp : HwSign),
       hw { sign_scheme := 0x02, digest := hashImpl "sha384" data,
            digest_len := 48, key_id := k.key_id } = resp →
       resp.status = 0 →
       (k.pkcs1v15_sign hashImpl data "sha384" hw).2 =
         .ok (mkPkcs1v15Signature "sha384" k.key_id resp.raw)) ∧
    (∀ (hashImpl : String → List Nat → List Nat) (k : crypto.RSAKey)
       (data : List Nat) (hw : RsaSignCall → HwSign) (resp : HwSign),
       hw { sign_scheme := 0x01, digest := hashImpl "sha256" data,
            digest_len := 32, key_id := k.id } = resp →
       resp.status = 0 →
       (k.pkcs1v15_sign hashImpl data "sha256" hw).2 =
         .ok (mkPkcs1v15Signature "sha256" k.id resp.raw)) ∧
    (∀ (hashImpl : String → List Nat → List Nat) (k : crypto.RSAKey)
       (data : List Nat) (hw : RsaSignCall → HwSign) (resp : HwSign),
       hw { sign_scheme := 0x02, digest := hashImpl "sha384" data,
            digest_len := 48, key_id := k.id } = resp →
       resp.status = 0 →
       (k.pkcs1v15_sign hashImpl data "sha384" hw).2 =
         .ok (mkPkcs1v15Signature "sha384" k.id resp.raw)) := by
  refine ⟨?_, ?_, ?_, ?_, ?_, ?_⟩
  · intro hashImpl k data alg hw h1 h2
    simp [asymmetric.RsaKey.pkcs1v15_sign, h1, h2]
  · intro hashImpl k data alg hw h1 h2
    simp [crypto.RSAKey.pkcs1v15_sign, h1, h2]
  · intro hashImpl k data hw resp hcall h0
    unfold asymmetric.RsaKey.pkcs1v15_sign
    simp only [if_pos rfl, hcall]
    simp [h0]
  · intro hashImpl k data hw resp hcall h0
    unfold asymmetric.RsaKey.pkcs1v15_sign
    simp only [hcall]
    simp [h0]
  · intro hashImpl k data hw resp hcall h0
    unfold crypto.RSAKey.pkcs1v15_sign
    simp only [if_pos rfl, hcall]
    simp [h0]
  · intro hashImpl k data hw resp hcall h0
    unfold crypto.RSAKey.pkcs1v15_sign
    simp only [hcall]
    simp [h0]

/-- Witness for C7: sha512 is rejected without consulting the transport and
sha384 is accepted on a zero status. -/
theorem C7_pkcs1v15_hash_algorithms_witness :
    crypto.RSAKey.pkcs1v15_sign (fun _ _ => [1])
        { id := 0xe0fc, key_usage := none, key_size := none,
          pkey := none, key := none }
        [9] "sha512" (fun _ => { status := 0, raw := [2] }) =
      ({ id := 0xe0fc, key_usage := none, key_size := none,
         pkey := none, key := none },
       .error (.unsupportedHashAlgorithm "sha512")) ∧
    (asymmetric.RsaKey.pkcs1v15_sign (fun _ _ => [1])
        { key_id := 0xe0fd, key_usage := none, key_size := none,
          pkey := none }
        [9] "sha384" (fun _ => { status := 0, raw := [4, 5] })).2 =
      .ok (mkPkcs1v15Signature "sha384" 0xe0fd [4, 5]) :=
  ⟨C7_pkcs1v15_hash_algorithms.2.1 (fun _ _ => [1])
      { id := 0xe0fc, key_usage := none, key_size := none,
        pkey := none, key := none }
      [9] "sha512" (fun _ => { status := 0, raw := [2] })
      (by decide) (by decide),
   C7_pkcs1v15_hash_algorithms.2.2.2.1 (fun _ _ => [1])
      { key_id := 0xe0fd, key_usage := none, key_size := none, pkey := none }
      [9] (fun _ => { status := 0, raw := [4, 5] })
      { status := 0, raw := [4, 5] } rfl rfl⟩

/-- C8: ECC generate (both modules) rejects any requested usage flag outside
the ECC-allowed domain {key_agreement, authentication, signature} — the first
such flag (e.g. "encryption") raises UnsupportedUsageFlag regardless of the
transport oracle, i.e. before any hardware call — while RSA generate accepts
all four flags including encryption and binds them on success. -/
theorem C8_usage_flag_domains :
    (∀ (chip : Chip) (k : asymmetric.EccKey) (curve : String)
       (pre post : List String) (f : String) (hw : GenCall → HwKeyGen),
       f ∉ eccAllowedUsage → (∀ g ∈ pre, g ∈ eccAllowedUsage) →
       k.generate chip curve (some (pre ++ f :: post)) hw =
         (k, .error (.unsupportedUsageFlag f))) ∧
    (∀ (chip : Chip) (k : crypto.ECCKey) (curve : String)
       (pre post : List String) (f : String) (exportKey : Bool)
       (hw : GenCall → HwKeyGen),
       f ∉ eccAllowedUsage → (∀ g ∈ pre, g ∈ eccAllowedUsage) →
       k.generate chip curve (some (pre ++ f :: post)) exportKey hw =
         (k, .error (.unsupportedUsageFlag f))) ∧
    "encryption" ∉ eccAllowedUsage ∧
    "encryption" ∈ rsaAllowedUsage ∧
    (∀ (k : asymmetric.RsaKey) (key_size : Nat) (hw : GenCall → HwKeyGen)
       (kuL : List String) (call : GenCall) (resp : HwKeyGen),
       k.genCall key_size (some rsaAllowedUsage) = .ok (kuL, call) →
       hw call = resp →
       resp.status = 0 →
       (k.generate key_size (some rsaAllowedUsage) hw).1.key_usage =
         some rsaAllowedUsage ∧
       (k.generate key_size (some rsaAllowedUsage) hw).2 =
         .ok (k.generate key_size (some rsaAllowedUsage) hw).1) ∧
    (∀ (k : crypto.RSAKey) (key_size : Nat) (exportKey : Bool)
       (hw : GenCall → HwKeyGen) (kuL : List String) (call : GenCall)
       (resp : HwKeyGen),
       k.genCall key_size (some rsaAllowedUsage) exportKey = .ok (kuL, call) →
       hw call = resp →
       resp.status = 0 →
       (k.generate key_size (some rsaAllowedUsage) exportKey hw).1.key_usage =
         some rsaAllowedUsage ∧
       (k.generate key_size (some rsaAllowedUsage) exportKey hw).2 =
         .ok (k.generate key_size (some rsaAllowedUsage) exportKey hw).1) := by
  refine ⟨?_, ?_, by decide, by decide, ?_, ?_⟩
  · intro chip k curve pre post f hw hf hpre
    have h1 : resolveUsage eccAllowedUsage (some (pre ++ f :: post)) =
        .error (.unsupportedUsageFlag f) :=
      resolveUsageList_firstBad eccAllowedUsage pre f post hf hpre
    unfold asymmetric.EccKey.generate asymmetric.EccKey.genCall
    rw [h1]
  · intro chip k curve pre post f exportKey hw hf hpre
    have h1 : resolveUsage eccAllowedUsage (some (pre ++ f :: post)) =
        .error (.unsupportedUsageFlag f) :=
      resolveUsageList_firstBad eccAllowedUsage pre f post hf hpre
    unfold crypto.ECCKey.generate crypto.ECCKey.genCall
    rw [h1]
  · intro k key_size hw kuL call resp hok hcall h0
    have hres : resolveUsage rsaAllowedUsage (some rsaAllowedUsage) =
        .ok rsaAllowedUsage := rfl
    have hok2 := hok
    unfold asymmetric.RsaKey.genCall at hok2
    rw [hres] at hok2
    by_cases hsz : key_size ∈ ([1024, 2048] : List Nat)
    · simp [hsz] at hok2
      obtain ⟨h1, -⟩ := hok2
      subst h1
      unfold asymmetric.RsaKey.generate
      rw [hok]
      simp only [hcall]
      simp [h0]
    · simp [hsz] at hok2
  · intro k key_size exportKey hw kuL call resp hok hcall h0
    have hres : resolveUsage rsaAllowedUsage (some rsaAllowedUsage) =
        .ok rsaAllowedUsage := rfl
    have hok2 := hok
    unfold crypto.RSAKey.genCall at hok2
    rw [hres] at hok2
    by_cases hsz : key_size ∈ ([1024, 2048] : List Nat)
    · simp [hsz] at hok2
      obtain ⟨h1, -⟩ := hok2
      subst h1
      unfold crypto.RSAKey.generate
      rw [hok]
      simp only [hcall]
      simp [h0]
    · simp [hsz] at hok2

/-- Witness for C8: requesting ECC usage {encryption} fails with
UnsupportedUsageFlag without consulting the transport, while RSA generate
with all four flags succeeds and binds them. -/
theorem C8_usage_flag_domains_witness :
    asymmetric.EccKey.generate
        { sessionIds := [], curvesValues := [3] }
        { key_id := 0xe0f0, curve := "secp256r1", key_usage := none,
          hash_alg := none, pkey := none }
        "secp256r1" (some ["encryption"])
        (fun _ => { status := 0, pubkey := [1], priv := [] }) =
      ({ key_id := 0xe0f0, curve := "secp256r1", key_usage := none,
         hash_alg := none, pkey := none },
       .error (.unsupportedUsageFlag "encryption")) ∧
    (crypto.RSAKey.generate
        { id := 0xe0fc, key_usage := none, key_size := none,
          pkey := none, key := none }
        1024 (some rsaAllowedUsage) false
        (fun _ => { status := 0, pubkey := [1], priv := [] })).1.key_usage =
      some rsaAllowedUsage :=
  ⟨C8_usage_flag_domains.1
      { sessionIds := [], curvesValues := [3] }
      { key_id := 0xe0f0, curve := "secp256r1", key_usage := none,
        hash_alg := none, pkey := none }
      "secp256r1" [] [] "encryption"
      (fun _ => { status := 0, pubkey := [1], priv := [] })
      (by decide) (by simp),
   (C8_usage_flag_domains.2.2.2.2.2
      { id := 0xe0fc, key_usage := none, key_size := none,
        pkey := none, key := none }
      1024 false
      (fun _ => { status := 0, pubkey := [1], priv := [] })
      rsaAllowedUsage
      { ctype := 0x41, usage_mask := usageMask rsaAllowedUsage,
        exportFlag := false, key_id := 0xe0fc }
      { status := 0, pubkey := [1], priv := [] }
      rfl rfl rfl).1⟩

/-- C4: For every non-empty duplicate-free subset of the key kind's allowed
usage flags, the usage bitmask sent to the hardware by generate equals the
sum of the per-flag bit values, and decoding that bitmask recovers exactly
the requested flags; when the usage argument is absent (None), the bound
usage set is the default {key_agreement, signature} and the mask is that
default's bitmask. The last two conjuncts tie the mask byte of the call
assembled by generate to `usageMask` of the bound flag list. -/
theorem C4_usage_bitmask_roundtrip :
    (∀ S : List String, S.Nodup → S ≠ [] → (∀ g ∈ S, g ∈ eccAllowedUsage) →
       resolveUsage eccAllowedUsage (some S) = .ok S ∧
       usageMask S = (S.map usageBit).sum ∧
       (∀ f, f ∈ decodeUsage eccAllowedUsage (usageMask S) ↔ f ∈ S)) ∧
    (∀ S : List String, S.Nodup → S ≠ [] → (∀ g ∈ S, g ∈ rsaAllowedUsage) →
       resolveUsage rsaAllowedUsage (some S) = .ok S ∧
       usageMask S = (S.map usageBit).sum ∧
       (∀ f, f ∈ decodeUsage rsaAllowedUsage (usageMask S) ↔ f ∈ S)) ∧
    (∀ allowed : List String,
       resolveUsage allowed none = .ok ["key_agreement", "signature"]) ∧
    usageMask ["key_agreement", "signature"] =
      usageBit "key_agreement" + usageBit "signature" ∧
    (∀ (chip : Chip) (k : asymmetric.EccKey) (curve : String)
       (ku : Option (List String)) (kuL : List String) (call : GenCall),
       k.genCall chip curve ku = .ok (kuL, call) →
       call.usage_mask = usageMask kuL) ∧
    (∀ (chip : Chip) (k : crypto.ECCKey) (curve : String)
       (ku : Option (List String)) (exportKey : Bool) (kuL : List String)
       (call : GenCall),
       k.genCall chip curve ku exportKey = .ok (kuL, call) →
       call.usage_mask = usageMask kuL) := by
  refine ⟨?_, ?_, fun _ => rfl, by decide, ?_, ?_⟩
  · intro S h1 h2 h3
    exact ⟨resolveUsageList_ok _ S h3, (usage_roundtrip_ecc S h1 h3).1,
           (usage_roundtrip_ecc S h1 h3).2⟩
  · intro S h1 h2 h3
    exact ⟨resolveUsageList_ok _ S h3, (usage_roundtrip_rsa S h1 h3).1,
           (usage_roundtrip_rsa S h1 h3).2⟩
  · intro chip k curve ku kuL call hok
    unfold asymmetric.EccKey.genCall at hok
    cases hres : resolveUsage eccAllowedUsage ku with
    | error e => rw [hres] at hok; simp at hok
    | ok l =>
      rw [hres] at hok
      cases hc : str2curve curve with
      | error e => rw [hc] at hok; simp at hok
      | ok c =>
        rw [hc] at hok
        by_cases hm : c ∈ chip.curvesValues
        · simp [hm] at hok
          obtain ⟨hl, hcall⟩ := hok
          subst hl
          rw [← hcall]
        · simp [hm] at hok
  · intro chip k curve ku exportKey kuL call hok
    unfold crypto.ECCKey.genCall at hok
    cases hres : resolveUsage eccAllowedUsage ku with
    | error e => rw [hres] at hok; simp at hok
    | ok l =>
      rw [hres] at hok
      cases hc : str2curve curve with
      | error e => rw [hc] at hok; simp at hok
      | ok c =>
        rw [hc] at hok
        by_cases hm : c ∈ chip.curvesValues
        · simp [hm] at hok
          obtain ⟨hl, hcall⟩ := hok
          subst hl
          rw [← hcall]
        · simp [hm] at hok

/-- Witness for C4 at the concrete request {signature} and at the default
request. -/
theorem C4_usage_bitmask_roundtrip_witness :
    resolveUsage eccAllowedUsage (some ["signature"]) = .ok ["signature"] ∧
    ("signature" ∈
      decodeUsage eccAllowedUsage (usageMask ["signature"]) ↔
      "signature" ∈ (["signature"] : List String)) ∧
    resolveUsage eccAllowedUsage none = .ok ["key_agreement", "signature"] :=
  ⟨(C4_usage_bitmask_roundtrip.1 ["signature"] (by decide) (by decide)
      (by decide)).1,
   (C4_usage_bitmask_roundtrip.1 ["signature"] (by decide) (by decide)
      (by decide)).2.2 "signature",
   C4_usage_bitmask_roundtrip.2.2.1 eccAllowedUsage⟩

/-- C6: for every ECC key, `ecdsa_sign` selects the digest algorithm solely
from the key's bound curve by the fixed mapping secp256r1/brainpoolp256r1 →
sha256 (32-byte digest), secp384r1/brainpoolp384r1 → sha384 (48 bytes),
secp521r1/brainpoolp512r1 → sha512 (64 bytes); for every unsupported curve
name, curve resolution fails with UnsupportedCurve. The final two conjuncts
show the signing paths of both modules taking digest length and name from
that mapping of the bound curve alone. -/
theorem C6_curve_digest_selection :
    curveDigest "secp256r1" = some (32, "sha256") ∧
    curveDigest "brainpoolp256r1" = some (32, "sha256") ∧
    curveDigest "secp384r1" = some (48, "sha384") ∧
    curveDigest "brainpoolp384r1" = some (48, "sha384") ∧
    curveDigest "secp521r1" = some (64, "sha512") ∧
    curveDigest "brainpoolp512r1" = some (64, "sha512") ∧
    (∀ s, s ∉ supportedCurves → str2curve s = .error (.unsupportedCurve s)) ∧
    (∀ (hashImpl : String → List Nat → List Nat) (k : asymmetric.EccKey)
       (data : List Nat) (hw : SignCall → HwSign) (dlen : Nat) (halg : String)
       (resp : HwSign),
       curveDigest k.curve = some (dlen, halg) →
       hw { digest := hashImpl halg data, digest_len := dlen,
            key_id := k.key_id } = resp →
       resp.status = 0 →
       ∃ sig, (k.ecdsa_sign hashImpl data hw).2 = .ok sig ∧
         sig.hash_alg = halg ∧ sig.algorithm = halg ++ "_" ++ "ecdsa") ∧
    (∀ (hashImpl : String → List Nat → List Nat) (k : crypto.ECCKey)
       (data : List Nat) (hw : SignCall → HwSign) (dlen : Nat) (halg : String)
       (resp : HwSign),
       curveDigest k.curve = some (dlen, halg) →
       hw { digest := hashImpl halg data, digest_len := dlen,
            key_id := k.id } = resp →
       resp.status = 0 →
       ∃ sig, (k.ecdsa_sign hashImpl data hw).2 = .ok sig ∧
         sig.hash_alg = halg ∧ sig.algorithm = halg ++ "_" ++ "ecdsa") := by
  refine ⟨rfl, rfl, rfl, rfl, rfl, rfl, ?_, ?_, ?_⟩
  · intro s hs
    simp only [supportedCurves, List.mem_cons, List.not_mem_nil, or_false,
      not_or] at hs
    obtain ⟨n1, n2, n3, n4, n5, n6⟩ := hs
    simp [str2curve, curveId, n1, n2, n3, n4, n5, n6]
  · intro hashImpl k data hw dlen halg resp hmap hcall h0
    refine ⟨mkEcdsaSignature halg k.key_id
      (0x30 :: resp.raw.length :: resp.raw), ?_, rfl, rfl⟩
    unfold asymmetric.EccKey.ecdsa_sign
    rw [hmap]
    simp only [hcall]
    simp [h0]
  · intro hashImpl k data hw dlen halg resp hmap hcall h0
    refine ⟨mkEcdsaSignature halg k.id
      (0x30 :: resp.raw.length :: resp.raw), ?_, rfl, rfl⟩
    unfold crypto.ECCKey.ecdsa_sign
    rw [hmap]
    simp only [hcall]
    simp [h0]

/-- Witness for C6: an unsupported curve name is rejected by curve
resolution, and a concrete secp521r1 signing call records sha512. -/
theorem C6_curve_digest_selection_witness :
    str2curve "secp256k1" = .error (.unsupportedCurve "secp256k1") ∧
    (∃ sig,
      (crypto.ECCKey.ecdsa_sign (fun _ _ => [])
          { id := 0xe0f2, curve := "secp521r1", key_usage := none,
            hash_alg := none, pkey := none, key := none }
          [7] (fun _ => { status := 0, raw := [1] })).2 = .ok sig ∧
      sig.hash_alg = "sha512" ∧ sig.algorithm = "sha512" ++ "_" ++ "ecdsa") :=
  ⟨C6_curve_digest_selection.2.2.2.2.2.2.1 "secp256k1" (by decide),
   C6_curve_digest_selection.2.2.2.2.2.2.2.2 (fun _ _ => [])
     { id := 0xe0f2, curve := "secp521r1", key_usage := none,
       hash_alg := none, pkey := none, key := none }
     [7] (fun _ => { status := 0, raw := [1] }) 64 "sha512"
     { status := 0, raw := [1] } (by decide) rfl rfl⟩

end optigatrust
